import Mathlib

/-
Verification of the Inficon VGC502 controller driver (inficonvgc502.py).

The driver is shallowly embedded: the TCP socket is replaced by an explicit
list of receive events (bytes, timeouts, end-of-list = peer close), the
mutable object state by an explicit record threaded through every operation,
and Python exceptions by an explicit error type carried in Except.
Python numeric strings are idealized as exact rationals.
-/

deriving instance DecidableEq for Except

namespace Inficon

/-- Python exception classes that can cross the functions modelled here.
The classes WrongCommandError, UnknownResponse and DeviceConnectionError are
declared at module level in the source; osError models IOError/OSError and
timeoutError models socket.timeout (a subclass of OSError). -/
inductive PyErr where
  | osError
  | timeoutError
  | typeError
  | valueError
  | indexError
  | attributeError
  | wrongCommand
  | unknownResponse (raw : List Nat)
  | deviceConnectionError
  deriving DecidableEq, Repr

/-- Events delivered by socket.recv(1): a byte, or a socket.timeout.
The end of the event list models the peer closing the stream (recv returns
an empty bytes object from then on). -/
inductive RecvEvent where
  | byte (b : Nat)
  | timeout
  deriving DecidableEq, Repr

/-- Whitespace bytes removed by Python bytes.strip(). -/
def isWsByte (b : Nat) : Bool :=
  b == 9 || b == 10 || b == 11 || b == 12 || b == 13 || b == 32

/-- Python bytes.strip(): drop whitespace from both ends (end first, then
front; the two sides are independent). -/
def stripBytes (l : List Nat) : List Nat :=
  ((l.reverse.dropWhile isWsByte).reverse).dropWhile isWsByte

/-- Whitespace characters removed by Python str.strip() on ASCII text. -/
def isWsChar (c : Char) : Bool :=
  c == ' ' || c == '\t' || c == '\n' || c == '\r' ||
    c == Char.ofNat 11 || c == Char.ofNat 12

/-- Python str.strip() on the character list. -/
def stripChars (l : List Char) : List Char :=
  ((l.reverse.dropWhile isWsChar).reverse).dropWhile isWsChar

/-- Python str.strip(). -/
def pyStrip (s : String) : String := ⟨stripChars s.toList⟩

/-- Byte encoding of an ASCII command string (str.encode()). -/
def strBytes (s : String) : List Nat := s.toList.map Char.toNat

/-- Python bytes.decode() restricted to ASCII input: the payload lines of
this protocol are ASCII; a non-ASCII byte raises UnicodeDecodeError, which is
a subclass of ValueError. -/
def decodeAscii (l : List Nat) : Except PyErr String :=
  if l.all (· < 128) then .ok ⟨l.map Char.ofNat⟩ else .error .valueError

/-- Numeric value of a digit string. -/
def digitsToNat (ds : List Char) : Nat :=
  ds.foldl (fun a c => a * 10 + (c.toNat - 48)) 0

/-- Python int(str): strip whitespace, optional sign, decimal digits.
Returns none where Python raises ValueError. -/
def pyIntStr (s : String) : Option Int :=
  match stripChars s.toList with
  | [] => none
  | '+' :: ds =>
      if !ds.isEmpty && ds.all Char.isDigit then some (digitsToNat ds) else none
  | '-' :: ds =>
      if !ds.isEmpty && ds.all Char.isDigit then some (-(digitsToNat ds : Int)) else none
  | ds =>
      if ds.all Char.isDigit then some (digitsToNat ds) else none

/-- Python int(x) where x is a str or None: int(None) raises TypeError,
an unparsable string raises ValueError. -/
def pyInt : Option String → Except PyErr Int
  | none => .error .typeError
  | some s =>
      match pyIntStr s with
      | some n => .ok n
      | none => .error .valueError

/-- Exponent part of a float literal: optional sign and decimal digits. -/
def parseExp (cs : List Char) : Option Int :=
  match cs with
  | '+' :: ds =>
      if !ds.isEmpty && ds.all Char.isDigit then some (digitsToNat ds) else none
  | '-' :: ds =>
      if !ds.isEmpty && ds.all Char.isDigit then some (-(digitsToNat ds : Int)) else none
  | ds =>
      if !ds.isEmpty && ds.all Char.isDigit then some (digitsToNat ds) else none

/-- Mantissa of a float literal: digits with an optional decimal point,
at least one digit overall. Returns the digit value together with the
number of fractional digits. -/
def parseMantissa (cs : List Char) : Option (Nat × Nat) :=
  let ip := cs.takeWhile (fun c => !(c == '.'))
  let rest := cs.dropWhile (fun c => !(c == '.'))
  match rest with
  | [] => if !ip.isEmpty && ip.all Char.isDigit then some (digitsToNat ip, 0) else none
  | _ :: fp =>
      if (ip.all Char.isDigit && fp.all Char.isDigit) && !(ip.isEmpty && fp.isEmpty) then
        some (digitsToNat (ip ++ fp), fp.length)
      else none

/-- Exact rational value of m times ten to the power e. -/
def sciToRat (m : Nat) (e : Int) : ℚ :=
  if 0 ≤ e then mkRat (m * 10 ^ e.toNat) 1 else mkRat m (10 ^ (-e).toNat)

/-- Unsigned float literal: mantissa with optional exponent part. -/
def pyFloatCore (cs : List Char) : Option ℚ :=
  let mant := cs.takeWhile (fun c => !(c == 'e' || c == 'E'))
  let rest := cs.dropWhile (fun c => !(c == 'e' || c == 'E'))
  match rest with
  | [] => (parseMantissa mant).map fun p => sciToRat p.1 (-(p.2 : Int))
  | _ :: es =>
      match parseMantissa mant, parseExp es with
      | some p, some e => some (sciToRat p.1 (e - p.2))
      | _, _ => none

/-- Python float(str) on finite decimal literals, idealized as an exact
rational. Returns none where Python raises ValueError. -/
def pyFloatStr (s : String) : Option ℚ :=
  match stripChars s.toList with
  | [] => none
  | '+' :: cs => pyFloatCore cs
  | '-' :: cs => (pyFloatCore cs).map Neg.neg
  | cs => pyFloatCore cs

/-- Python float(x) where x is a str or None: float(None) raises TypeError. -/
def pyFloat : Option String → Except PyErr ℚ
  | none => .error .typeError
  | some s =>
      match pyFloatStr s with
      | some q => .ok q
      | none => .error .valueError

/-- Reserved sentinel sys.float_info.max, the largest IEEE binary64 value,
idealized as the exact rational it denotes. -/
def float_info_max : ℚ := (2 ^ 53 - 1) * 2 ^ 971

/-- Python str.split(sep) worker; fuel bounds the recursion and is chosen
large enough never to run out for a nonempty separator. -/
def splitGo (sep : List Char) : Nat → List Char → List Char → List (List Char)
  | 0, cs, cur => [cur ++ cs]
  | _ + 1, [], cur => [cur]
  | fuel + 1, c :: cs, cur =>
      if sep.isPrefixOf (c :: cs) then
        cur :: splitGo sep fuel ((c :: cs).drop sep.length) []
      else
        splitGo sep fuel cs (cur ++ [c])

/-- Python str.split(sep) for a nonempty separator string. -/
def pySplit (s : String) (sep : String) : List String :=
  (splitGo sep.toList (s.toList.length + 1) s.toList []).map fun l => ⟨l⟩

/-- Python tuple indexing t[i] with negative-index wraparound; out of range
raises IndexError. -/
def tupleIndex (l : List String) (i : Int) : Except PyErr String :=
  let j : Int := if i < 0 then i + l.length else i
  if 0 ≤ j ∧ j < l.length then .ok (l.getD j.toNat "") else .error .indexError

/-- Pressure-unit display strings, UNIT_CODES in the source. -/
def UNIT_CODES : List String := ["mbar", "Torr", "Pascal", "Micron", "hPascal", "Volt"]

/-- Mutable state of an InficonVGC502 instance: the identity and unit cache
set by __init__, the connected flag of the base class, and a log of every
byte sequence passed to sock.sendall (most recent last). -/
structure DeviceState where
  connected : Bool := true
  type : String := ""
  model : String := ""
  serial_number : Option Int := none
  firmware_version : String := ""
  hardware_version : String := ""
  pressure_units : String := ""
  n_gauges : Int := 0
  sent : List (List Nat) := []
  deriving DecidableEq, Repr

/-- Method _read_until(terminator, max_bytes): accumulate single bytes until
the buffer ends with the terminator, max_bytes is reached, or the peer
closes. A socket.timeout raised by recv is rewrapped by the bare
except clause into a plain IOError. -/
def readUntil (term : List Nat) (maxBytes : Nat) :
    List Nat → List RecvEvent → Except PyErr (List Nat) × List RecvEvent
  | buf, [] => (.ok buf, [])
  | _, .timeout :: rest => (.error .osError, rest)
  | buf, .byte b :: rest =>
      if term.isSuffixOf (buf ++ [b]) then (.ok (buf ++ [b]), rest)
      else if maxBytes ≤ (buf ++ [b]).length then (.ok (buf ++ [b]), rest)
      else readUntil term maxBytes (buf ++ [b]) rest

/-- Method _send_command: refuse when not connected (returning False after a
log line), otherwise append the terminator and write the frame. -/
def send_command (s : DeviceState) (command : String) : Bool × DeviceState :=
  if !s.connected then (false, s)
  else (true, { s with sent := s.sent ++ [strBytes (command ++ "\r\n")] })

/-- Method _read_reply: read the handshake line; on ACK send ENQ and read,
decode and strip the payload line; on NAK or an unrecognized handshake log
and return None. The handshake read is guarded only by except socket.timeout,
which never matches the plain IOError produced by _read_until; the payload
read is additionally guarded by except OSError. -/
def read_reply (s : DeviceState) (st : List RecvEvent) :
    Except PyErr (Option String) × List RecvEvent × DeviceState :=
  if !s.connected then (.ok none, st, s)
  else
    match readUntil [13, 10] 4096 [] st with
    | (.error e, st') =>
        if e = .timeoutError then (.ok none, st', s) else (.error e, st', s)
    | (.ok ackRaw, st') =>
        if stripBytes ackRaw = [6] then
          let s' := { s with sent := s.sent ++ [[5]] }
          match readUntil [13, 10] 4096 [] st' with
          | (.error e, st'') =>
              if e = .timeoutError then (.ok none, st'', s')
              else if e = .osError ∨ e = .timeoutError then (.ok none, st'', s')
              else (.error e, st'', s')
          | (.ok payloadRaw, st'') =>
              match decodeAscii payloadRaw with
              | .error e => (.error e, st'', s')
              | .ok resp => (.ok (some (pyStrip resp)), st'', s')
        else if stripBytes ackRaw = [21] then (.ok none, st', s)
        else (.ok none, st', s)

/-- Identity-decoding tail of initialize (the body below
devinfo = self._read_reply() in the source): split on commas, require
exactly five fields, populate the identity fields, and derive n_gauges from
the last character of the type; int(None) style failures surface as the
exceptions Python would raise at the corresponding statement. -/
def decode_identity (s : DeviceState) (devinfo : Option String) :
    Except PyErr Unit × DeviceState :=
  match devinfo with
  | none => (.error .attributeError, s)
  | some info =>
      let dev_items := pySplit info ","
      if dev_items.length = 5 then
        let s1 := { s with type := dev_items.getD 0 "", model := dev_items.getD 1 "" }
        match pyIntStr (dev_items.getD 2 "") with
        | none => (.error .valueError, s1)
        | some sn =>
            let s2 := { s1 with serial_number := some sn,
                                firmware_version := dev_items.getD 3 "",
                                hardware_version := dev_items.getD 4 "" }
            match s2.type.toList.getLast? with
            | none => (.error .indexError, s2)
            | some c =>
                match pyIntStr ⟨[c]⟩ with
                | some n => (.ok (), { s2 with n_gauges := n })
                | none => (.ok (), { s2 with n_gauges := 0 })
      else (.ok (), s)

/-- First half of initialize: the body of if self._send_command("UNI") —
parse the echoed unit code and cache the unit string when it is in range. -/
def dev_init_uni (s : DeviceState) (st : List RecvEvent) :
    Except PyErr Unit × List RecvEvent × DeviceState :=
  let u := send_command s "UNI"
  if u.1 then
    match read_reply u.2 st with
    | (.error e, st', s2) => (.error e, st', s2)
    | (.ok r, st', s2) =>
        match pyInt r with
        | .error e => (.error e, st', s2)
        | .ok unit_code =>
            if 0 ≤ unit_code ∧ unit_code ≤ 5 then
              match tupleIndex UNIT_CODES unit_code with
              | .error e => (.error e, st', s2)
              | .ok un => (.ok (), st', { s2 with pressure_units := un })
            else (.ok (), st', s2)
  else (.ok (), st, u.2)

/-- Second half of initialize: the body of if self._send_command("AYT") —
read the identity payload and decode it. -/
def dev_init_ayt (s : DeviceState) (st : List RecvEvent) :
    Except PyErr Unit × List RecvEvent × DeviceState :=
  let a := send_command s "AYT"
  if a.1 then
    match read_reply a.2 st with
    | (.error e, st', s3) => (.error e, st', s3)
    | (.ok devinfo, st', s3) =>
        match decode_identity s3 devinfo with
        | (.error e, s4) => (.error e, st', s4)
        | (.ok _, s4) => (.ok (), st', s4)
  else (.ok (), st, a.2)

/-- Method initialize: query the unit code with UNI (caching the unit string
when the code is in range), then query the identity with AYT; an exception
raised in the first half propagates before the second half runs. -/
def dev_init (s : DeviceState) (st : List RecvEvent) :
    Except PyErr Unit × List RecvEvent × DeviceState :=
  match dev_init_uni s st with
  | (.error e, st', s') => (.error e, st', s')
  | (.ok _, st', s') => dev_init_ayt s' st'

/-- Method set_pressure_unit: out-of-range codes are logged and produce
False without touching the transport; otherwise send UNI,{code}, parse the
echoed integer, succeed exactly when it equals the requested code, and cache
the unit string whenever the echo is in range. -/
def set_pressure_unit (s : DeviceState) (unit_code : Int) (st : List RecvEvent) :
    Except PyErr Bool × List RecvEvent × DeviceState :=
  if unit_code < 0 ∨ 5 < unit_code then (.ok false, st, s)
  else
    let u := send_command s ("UNI," ++ toString unit_code)
    if u.1 then
      match read_reply u.2 st with
      | (.error e, st', s2) => (.error e, st', s2)
      | (.ok r, st', s2) =>
          match pyInt r with
          | .error e => (.error e, st', s2)
          | .ok received =>
              if 0 ≤ received ∧ received ≤ 5 then
                match tupleIndex UNIT_CODES received with
                | .error e => (.error e, st', s2)
                | .ok un =>
                    (.ok (received == unit_code), st', { s2 with pressure_units := un })
              else (.ok (received == unit_code), st', s2)
    else (.ok false, st, u.2)

/-- Method get_pressure_unit: send UNI, parse the echoed integer and cache
the indexed unit string; the tuple index is unguarded here, so a negative
echo wraps around and a too-large echo raises IndexError. -/
def get_pressure_unit (s : DeviceState) (st : List RecvEvent) :
    Except PyErr (Option Int) × List RecvEvent × DeviceState :=
  let u := send_command s "UNI"
  if u.1 then
    match read_reply u.2 st with
    | (.error e, st', s2) => (.error e, st', s2)
    | (.ok r, st', s2) =>
        match pyInt r with
        | .error e => (.error e, st', s2)
        | .ok received =>
            match tupleIndex UNIT_CODES received with
            | .error e => (.error e, st', s2)
            | .ok un => (.ok (some received), st', { s2 with pressure_units := un })
  else (.ok none, st, u.2)

/-- Method read_temperature: send TMP (discarding the boolean result), read
the reply and parse it as a float; only ValueError is converted to the
sentinel, so float(None) raises TypeError past the method. -/
def read_temperature (s : DeviceState) (st : List RecvEvent) :
    Except PyErr ℚ × List RecvEvent × DeviceState :=
  let u := send_command s "TMP"
  match read_reply u.2 st with
  | (.error e, st', s2) => (.error e, st', s2)
  | (.ok response, st', s2) =>
      match pyFloat response with
      | .ok v => (.ok v, st', s2)
      | .error .valueError => (.ok float_info_max, st', s2)
      | .error e => (.error e, st', s2)

/-- Transfer part of read_pressure (the code below the gauge check): send
PR{gauge}, read the reply and parse field 1 of the comma-split payload;
IndexError, ValueError and AttributeError during parsing degrade to the
sentinel. -/
def read_pressure_exchange (s : DeviceState) (gauge : Int) (st : List RecvEvent) :
    Except PyErr ℚ × List RecvEvent × DeviceState :=
  let u := send_command s ("PR" ++ toString gauge)
  match read_reply u.2 st with
  | (.error e, st', s2) => (.error e, st', s2)
  | (.ok response, st', s2) =>
      match response with
      | none => (.ok float_info_max, st', s2)
      | some resp =>
          let parts := pySplit resp ","
          if 2 ≤ parts.length then
            match pyFloatStr (parts.getD 1 "") with
            | some v => (.ok v, st', s2)
            | none => (.ok float_info_max, st', s2)
          else (.ok float_info_max, st', s2)

/-- Method read_pressure: lazily initialize when n_gauges is zero, log and
return the sentinel for an out-of-range gauge, otherwise run the transfer. -/
def read_pressure (s : DeviceState) (gauge : Int) (st : List RecvEvent) :
    Except PyErr ℚ × List RecvEvent × DeviceState :=
  match (if s.n_gauges = 0 then dev_init s st else (.ok (), st, s)) with
  | (.error e, st', s') => (.error e, st', s')
  | (.ok _, st', s') =>
      if gauge < 1 ∨ s'.n_gauges < gauge then (.ok float_info_max, st', s')
      else read_pressure_exchange s' gauge st'

/-- Value returned by get_atomic_value: a float or (for the units item) the
cached unit string. -/
inductive PyVal where
  | float (q : ℚ)
  | str (s : String)
  deriving DecidableEq, Repr

/-- Python substring containment needle in haystack. -/
def strContains (hay needle : String) : Bool :=
  decide (needle.toList <:+: hay.toList)

/-- Method get_atomic_value: dispatch on a recognized substring of the item
name; the pressure branch catches ValueError around both the gauge-number
parse and the read, the units branch returns the cached string after
refreshing it, and unknown items give the sentinel. -/
def get_atomic_value (s : DeviceState) (item : String) (st : List RecvEvent) :
    Except PyErr PyVal × List RecvEvent × DeviceState :=
  if strContains item "pressure" then
    match pyIntStr ((pySplit item "pressure").getLastD "") with
    | none => (.ok (.float float_info_max), st, s)
    | some gauge_num =>
        match read_pressure s gauge_num st with
        | (.error .valueError, st', s') => (.ok (.float float_info_max), st', s')
        | (.error e, st', s') => (.error e, st', s')
        | (.ok v, st', s') => (.ok (.float v), st', s')
  else if strContains item "temperature" then
    match read_temperature s st with
    | (.error e, st', s') => (.error e, st', s')
    | (.ok v, st', s') => (.ok (.float v), st', s')
  else if strContains item "units" then
    match get_pressure_unit s st with
    | (.error e, st', s') => (.error e, st', s')
    | (.ok _, st', s') => (.ok (.str s'.pressure_units), st', s')
  else (.ok (.float float_info_max), st, s)

/-- Receive events for a raw byte list. -/
def bytesEvents (l : List Nat) : List RecvEvent := l.map RecvEvent.byte

/-- Receive events for one CRLF-terminated line with the given text. -/
def lineEvents (s : String) : List RecvEvent := bytesEvents (strBytes s ++ [13, 10])

/-- Handshake line carrying ACK (0x06). -/
def ackEvents : List RecvEvent := bytesEvents [6, 13, 10]

/-- Handshake line carrying NAK (0x15). -/
def nakEvents : List RecvEvent := bytesEvents [21, 13, 10]

/-- Freshly constructed, connected facade with no identity cached. -/
def connectedState : DeviceState := {}

/-- Connected facade whose identity reports one gauge. -/
def oneGaugeState : DeviceState := { connectedState with n_gauges := 1 }

/-- Public operations of the facade, for stating properties that range over
every operation. -/
inductive Op where
  | initOp
  | setUnit (code : Int)
  | getUnit
  | readPress (gauge : Int)
  | readTemp
  | getAtomic (item : String)

/-- State of the device object after running one public operation on a given
receive stream (whether the operation returns or raises). -/
def run_op (op : Op) (s : DeviceState) (st : List RecvEvent) : DeviceState :=
  match op with
  | .initOp => (dev_init s st).2.2
  | .setUnit c => (set_pressure_unit s c st).2.2
  | .getUnit => (get_pressure_unit s st).2.2
  | .readPress g => (read_pressure s g st).2.2
  | .readTemp => (read_temperature s st).2.2
  | .getAtomic item => (get_atomic_value s item st).2.2

/-- Invariant on the cached unit string: empty (never written) or one of the
six UNIT_CODES entries. -/
def unitsInv (s : DeviceState) : Prop :=
  s.pressure_units = "" ∨ s.pressure_units ∈ UNIT_CODES

/-- One step of unit-cache evolution: the string is untouched or set to a
listed unit. -/
def unitsOk (s s' : DeviceState) : Prop :=
  s'.pressure_units = s.pressure_units ∨ s'.pressure_units ∈ UNIT_CODES

/-- Appending a byte other than LF cannot complete the CRLF terminator. -/
lemma crlf_not_suffix_append (l : List Nat) (b : Nat) (hb : b ≠ 10) :
    [13, 10].isSuffixOf (l ++ [b]) = false := by
  rw [Bool.eq_false_iff]
  intro h
  rw [List.isSuffixOf_iff_suffix] at h
  obtain ⟨t, ht⟩ := h
  have h1 : (t ++ [13, 10]).getLast? = some 10 := by
    rw [show t ++ [13, 10] = (t ++ [13]) ++ [10] by simp, List.getLast?_concat]
  rw [ht, List.getLast?_concat] at h1
  exact hb (Option.some.inj h1)

/-- Appending the CRLF terminator completes it. -/
lemma crlf_suffix_append (l : List Nat) :
    [13, 10].isSuffixOf (l ++ [13] ++ [10]) = true := by
  rw [List.isSuffixOf_iff_suffix]
  exact ⟨l, by simp⟩

/-- Main framing lemma: on a stream that starts with one CRLF-terminated
line whose body contains no LF byte and fits the length bound, readUntil
returns exactly that line and leaves the remainder of the stream. -/
lemma readUntil_line (maxBytes : Nat) (content : List Nat) :
    ∀ (buf : List Nat) (rest : List RecvEvent),
      10 ∉ content →
      buf.length + content.length + 2 ≤ maxBytes →
      readUntil [13, 10] maxBytes buf (bytesEvents (content ++ [13, 10]) ++ rest)
        = (.ok (buf ++ content ++ [13, 10]), rest) := by
  induction content with
  | nil =>
      intro buf rest _ hlen
      simp only [List.nil_append, List.append_nil, bytesEvents, List.map_cons, List.map_nil,
        List.cons_append]
      rw [readUntil, crlf_not_suffix_append buf 13 (by decide)]
      simp only [Bool.false_eq_true, if_false, List.length_append, List.length_cons,
        List.length_nil]
      rw [if_neg (by omega)]
      rw [readUntil]
      rw [if_pos (crlf_suffix_append buf)]
      simp
  | cons c cs ih =>
      intro buf rest h10 hlen
      simp only [List.cons_append, bytesEvents, List.map_cons] at *
      rw [readUntil, crlf_not_suffix_append buf c (by simp at h10; tauto)]
      simp only [Bool.false_eq_true, if_false, List.length_append, List.length_cons,
        List.length_nil]
      rw [if_neg (by simp at hlen ⊢; omega)]
      rw [ih (buf ++ [c]) rest (by simp at h10; tauto) (by simp at hlen ⊢; omega)]
      simp

/-- Worker for the line-reader bound: starting from a buffer shorter than
maxBytes, readUntil on a pure byte stream appends a prefix of the stream to
the buffer, stops for one of the three documented reasons, and never exceeds
maxBytes. -/
lemma readUntil_spec (term : List Nat) (maxBytes : Nat) (bytes : List Nat) :
    ∀ buf : List Nat, buf.length < maxBytes →
      ∃ p, p <+: bytes ∧
        (readUntil term maxBytes buf (bytesEvents bytes)).1 = .ok (buf ++ p) ∧
        (term.isSuffixOf (buf ++ p) = true ∨ (buf ++ p).length = maxBytes ∨ p = bytes) ∧
        (buf ++ p).length ≤ maxBytes := by
  induction bytes with
  | nil =>
      intro buf hbuf
      exact ⟨[], List.nil_prefix, by simp [bytesEvents, readUntil],
        Or.inr (Or.inr rfl), by simpa using Nat.le_of_lt hbuf⟩
  | cons b bs ih =>
      intro buf hbuf
      by_cases h1 : term.isSuffixOf (buf ++ [b]) = true
      · refine ⟨[b], ⟨bs, rfl⟩, ?_, Or.inl h1, ?_⟩
        · simp only [bytesEvents, List.map_cons, readUntil, h1, if_true]
        · simp only [List.length_append, List.length_cons, List.length_nil]
          omega
      · by_cases h2 : maxBytes ≤ (buf ++ [b]).length
        · refine ⟨[b], ⟨bs, rfl⟩, ?_, Or.inr (Or.inl ?_), ?_⟩
          · simp only [bytesEvents, List.map_cons, readUntil, h1, Bool.false_eq_true, if_false,
              h2, if_true]
          · simp only [List.length_append, List.length_cons, List.length_nil] at h2 ⊢
            omega
          · simp only [List.length_append, List.length_cons, List.length_nil] at h2 ⊢
            omega
        · obtain ⟨p, hp, hres, hdisj, hlen⟩ := ih (buf ++ [b])
            (by simp only [List.length_append, List.length_cons, List.length_nil] at h2 ⊢; omega)
          refine ⟨b :: p, ?_, ?_, ?_, ?_⟩
          · obtain ⟨t, ht⟩ := hp
            exact ⟨t, by simp [← ht]⟩
          · simpa only [bytesEvents, List.map_cons, readUntil, h1, Bool.false_eq_true, if_false,
              h2, List.append_assoc, List.singleton_append] using hres
          · simpa only [List.append_assoc, List.singleton_append] using
              hdisj.imp id (Or.imp id fun h => by simp [h])
          · simpa only [List.append_assoc, List.singleton_append] using hlen

/-- Specialization of the framing lemma to the call sites in _read_reply. -/
lemma readUntil_single_line (content : List Nat) (rest : List RecvEvent)
    (h10 : 10 ∉ content) (hlen : content.length + 2 ≤ 4096) :
    readUntil [13, 10] 4096 [] (bytesEvents (content ++ [13, 10]) ++ rest)
      = (.ok (content ++ [13, 10]), rest) := by
  simpa using readUntil_line 4096 content [] rest h10 (by simpa using hlen)

/-- Stripping is unaffected by a trailing CRLF. -/
lemma stripChars_append_crlf (l : List Char) :
    stripChars (l ++ ['\r', '\n']) = stripChars l := by
  have h1 : isWsChar '\n' = true := by decide
  have h2 : isWsChar '\r' = true := by decide
  simp [stripChars, List.reverse_append, List.dropWhile_cons, h1, h2]

/-- pyStrip of a clean line followed by the terminator returns the line. -/
lemma pyStrip_line (s : String) (hclean : stripChars s.toList = s.toList) :
    pyStrip (s ++ "\r\n") = s := by
  have h : (s ++ "\r\n").toList = s.toList ++ ['\r', '\n'] := rfl
  simp only [pyStrip, h, stripChars_append_crlf, hclean]
  rfl

/-- Decoding the encoded bytes of an ASCII string plus CRLF restores the
string plus CRLF. -/
lemma decodeAscii_strBytes (s : String) (h : (strBytes s).all (· < 128) = true) :
    decodeAscii (strBytes s ++ [13, 10]) = .ok (s ++ "\r\n") := by
  have hall : (strBytes s ++ [13, 10]).all (· < 128) = true := by
    rw [List.all_append, h]
    decide
  simp only [decodeAscii, hall, if_true]
  congr 1
  have hmap : (strBytes s).map Char.ofNat = s.toList := by
    simp [strBytes, List.map_map, Function.comp_def, Char.ofNat_toNat]
  show String.mk ((strBytes s ++ [13, 10]).map Char.ofNat) = s ++ "\r\n"
  rw [List.map_append, hmap]
  rfl

/-- Engine behavior on NAK: _read_reply logs a warning and returns None for
every connected state and every command; nothing is raised and no ENQ is
sent. -/
lemma read_reply_nak (s : DeviceState) (rest : List RecvEvent) (h : s.connected = true) :
    read_reply s (nakEvents ++ rest) = (.ok none, rest, s) := by
  have hline := readUntil_single_line [21] rest (by decide) (by decide)
  rw [show bytesEvents ([21] ++ [13, 10]) ++ rest = nakEvents ++ rest from rfl] at hline
  simp only [read_reply, h, Bool.not_true, Bool.false_eq_true, if_false, hline,
    show stripBytes ([21] ++ [13, 10]) = [21] from rfl]
  rw [if_neg (by decide)]
  simp

/-- Engine behavior on ACK: _read_reply sends ENQ and returns the decoded,
stripped payload line, for every connected state and every ASCII payload
line without an embedded LF that fits the frame bound. -/
lemma read_reply_ack (s : DeviceState) (echo : String) (rest : List RecvEvent)
    (hconn : s.connected = true)
    (hascii : (strBytes echo).all (· < 128) = true)
    (h10 : 10 ∉ strBytes echo)
    (hlen : (strBytes echo).length + 2 ≤ 4096) :
    read_reply s (ackEvents ++ (lineEvents echo ++ rest))
      = (.ok (some (pyStrip (echo ++ "\r\n"))), rest,
         { s with sent := s.sent ++ [[5]] }) := by
  have hline1 := readUntil_single_line [6] (lineEvents echo ++ rest) (by decide) (by decide)
  rw [show bytesEvents ([6] ++ [13, 10]) = ackEvents from rfl] at hline1
  have hline2 := readUntil_single_line (strBytes echo) rest h10 hlen
  rw [show bytesEvents (strBytes echo ++ [13, 10]) = lineEvents echo from rfl] at hline2
  simp only [read_reply, hconn, Bool.not_true, Bool.false_eq_true, if_false, hline1, hline2,
    show stripBytes ([6] ++ [13, 10]) = [6] from rfl, if_pos rfl,
    decodeAscii_strBytes echo hascii, if_true]

lemma unitsOk_refl (s : DeviceState) : unitsOk s s := Or.inl rfl

lemma unitsOk_trans {s1 s2 s3 : DeviceState} (h1 : unitsOk s1 s2) (h2 : unitsOk s2 s3) :
    unitsOk s1 s3 := by
  rcases h2 with h2 | h2
  · rcases h1 with h1 | h1
    · exact Or.inl (h2.trans h1)
    · exact Or.inr (h2 ▸ h1)
  · exact Or.inr h2

/-- Every string successfully read out of the unit tuple is a member. -/
lemma tupleIndex_mem (l : List String) (i : Int) (u : String)
    (h : tupleIndex l i = .ok u) : u ∈ l := by
  have key : ∀ j : Int,
      (if 0 ≤ j ∧ j < (l.length : Int) then
        (Except.ok (l.getD j.toNat "") : Except PyErr String)
       else .error .indexError) = .ok u → u ∈ l := by
    intro j hj
    split at hj
    · rename_i hb
      injection hj with hj
      subst hj
      have hlt : j.toNat < l.length := by omega
      rw [List.getD_eq_getElem?_getD, List.getElem?_eq_getElem hlt, Option.getD_some]
      exact List.getElem_mem hlt
    · exact absurd hj (by simp)
  unfold tupleIndex at h
  exact key _ h

/-- Method _read_reply only appends to the send log. -/
lemma read_reply_state (s : DeviceState) (st : List RecvEvent) :
    (read_reply s st).2.2 = s ∨ (read_reply s st).2.2 = { s with sent := s.sent ++ [[5]] } := by
  unfold read_reply
  repeat' split
  all_goals first
    | exact Or.inl rfl
    | exact Or.inr rfl

lemma read_reply_units (s : DeviceState) (st : List RecvEvent) :
    (read_reply s st).2.2.pressure_units = s.pressure_units := by
  rcases read_reply_state s st with h | h <;> rw [h]

lemma send_command_units (s : DeviceState) (c : String) :
    (send_command s c).2.pressure_units = s.pressure_units := by
  unfold send_command
  split <;> rfl

/-- Identity decoding never writes the unit cache. -/
lemma decode_identity_units (s : DeviceState) (d : Option String) :
    (decode_identity s d).2.pressure_units = s.pressure_units := by
  unfold decode_identity
  cases d with
  | none => rfl
  | some info =>
      dsimp only
      repeat' split
      all_goals rfl

/-- The UNI half of initialize leaves the unit cache alone or writes a
listed unit string. -/
lemma unitsOk_dev_init_uni (s : DeviceState) (st : List RecvEvent) :
    unitsOk s (dev_init_uni s st).2.2 := by
  unfold dev_init_uni
  dsimp only
  split
  · split
    · rename_i e st' s2 heq
      have h := read_reply_units (send_command s "UNI").2 st
      rw [heq] at h
      exact Or.inl (h.trans (send_command_units s "UNI"))
    · rename_i r st' s2 heq
      have h := read_reply_units (send_command s "UNI").2 st
      rw [heq] at h
      have h2 : unitsOk s s2 := Or.inl (h.trans (send_command_units s "UNI"))
      split
      · exact h2
      · split
        · split
          · exact h2
          · rename_i un heq2
            exact Or.inr (tupleIndex_mem _ _ _ heq2)
        · exact h2
  · exact Or.inl (send_command_units s "UNI")

/-- The AYT half of initialize never writes the unit cache. -/
lemma dev_init_ayt_units (s : DeviceState) (st : List RecvEvent) :
    (dev_init_ayt s st).2.2.pressure_units = s.pressure_units := by
  unfold dev_init_ayt
  dsimp only
  split
  · split
    · rename_i e st' s3 heq
      have h := read_reply_units (send_command s "AYT").2 st
      rw [heq] at h
      exact h.trans (send_command_units s "AYT")
    · rename_i devinfo st' s3 heq
      have h := read_reply_units (send_command s "AYT").2 st
      rw [heq] at h
      have h3 := h.trans (send_command_units s "AYT")
      split
      · rename_i e s4 heq2
        have h4 := decode_identity_units s3 devinfo
        rw [heq2] at h4
        exact h4.trans h3
      · rename_i s4 heq2
        have h4 := decode_identity_units s3 devinfo
        rw [heq2] at h4
        exact h4.trans h3
  · exact send_command_units s "AYT"

/-- Method initialize leaves the unit cache alone or writes a listed unit
string. -/
lemma unitsOk_dev_init (s : DeviceState) (st : List RecvEvent) :
    unitsOk s (dev_init s st).2.2 := by
  unfold dev_init
  split
  · rename_i e st' s' heq
    have h := unitsOk_dev_init_uni s st
    rw [heq] at h
    exact h
  · rename_i st' s' heq
    have h := unitsOk_dev_init_uni s st
    rw [heq] at h
    exact unitsOk_trans h (Or.inl (dev_init_ayt_units s' st'))

/-- Method set_pressure_unit leaves the unit cache alone or writes a listed
unit string. -/
lemma unitsOk_set_pressure_unit (s : DeviceState) (c : Int) (st : List RecvEvent) :
    unitsOk s (set_pressure_unit s c st).2.2 := by
  unfold set_pressure_unit
  dsimp only
  split
  · exact unitsOk_refl s
  · split
    · split
      · rename_i e st' s2 heq
        have h := read_reply_units (send_command s ("UNI," ++ toString c)).2 st
        rw [heq] at h
        exact Or.inl (h.trans (send_command_units s _))
      · rename_i r st' s2 heq
        have h := read_reply_units (send_command s ("UNI," ++ toString c)).2 st
        rw [heq] at h
        have h2 : unitsOk s s2 := Or.inl (h.trans (send_command_units s _))
        split
        · exact h2
        · split
          · split
            · exact h2
            · rename_i un heq2
              exact Or.inr (tupleIndex_mem _ _ _ heq2)
          · exact h2
    · exact Or.inl (send_command_units s _)

/-- Method get_pressure_unit leaves the unit cache alone or writes a listed
unit string (successful unguarded indexing still yields a member). -/
lemma unitsOk_get_pressure_unit (s : DeviceState) (st : List RecvEvent) :
    unitsOk s (get_pressure_unit s st).2.2 := by
  unfold get_pressure_unit
  dsimp only
  split
  · split
    · rename_i e st' s2 heq
      have h := read_reply_units (send_command s "UNI").2 st
      rw [heq] at h
      exact Or.inl (h.trans (send_command_units s "UNI"))
    · rename_i r st' s2 heq
      have h := read_reply_units (send_command s "UNI").2 st
      rw [heq] at h
      have h2 : unitsOk s s2 := Or.inl (h.trans (send_command_units s "UNI"))
      split
      · exact h2
      · split
        · exact h2
        · rename_i un heq2
          exact Or.inr (tupleIndex_mem _ _ _ heq2)
  · exact Or.inl (send_command_units s "UNI")

/-- Method read_temperature never writes the unit cache. -/
lemma read_temperature_units (s : DeviceState) (st : List RecvEvent) :
    (read_temperature s st).2.2.pressure_units = s.pressure_units := by
  unfold read_temperature
  dsimp only
  split
  · rename_i e st' s2 heq
    have h := read_reply_units (send_command s "TMP").2 st
    rw [heq] at h
    exact h.trans (send_command_units s "TMP")
  · rename_i resp st' s2 heq
    have h := read_reply_units (send_command s "TMP").2 st
    rw [heq] at h
    have h2 := h.trans (send_command_units s "TMP")
    split <;> exact h2

/-- Transfer part of read_pressure never writes the unit cache. -/
lemma read_pressure_exchange_units (s : DeviceState) (g : Int) (st : List RecvEvent) :
    (read_pressure_exchange s g st).2.2.pressure_units = s.pressure_units := by
  unfold read_pressure_exchange
  dsimp only
  split
  · rename_i e st' s2 heq
    have h := read_reply_units (send_command s ("PR" ++ toString g)).2 st
    rw [heq] at h
    exact h.trans (send_command_units s _)
  · rename_i resp st' s2 heq
    have h := read_reply_units (send_command s ("PR" ++ toString g)).2 st
    rw [heq] at h
    have h2 := h.trans (send_command_units s _)
    split
    · exact h2
    · split
      · split <;> exact h2
      · exact h2

/-- Method read_pressure leaves the unit cache alone or writes a listed unit
string (only through its lazy initialize). -/
lemma unitsOk_read_pressure (s : DeviceState) (g : Int) (st : List RecvEvent) :
    unitsOk s (read_pressure s g st).2.2 := by
  unfold read_pressure
  have hinit : ∀ r : Except PyErr Unit × List RecvEvent × DeviceState,
      (if s.n_gauges = 0 then dev_init s st else (.ok (), st, s)) = r →
      unitsOk s r.2.2 := by
    intro r hr
    split at hr
    · have h := unitsOk_dev_init s st
      rw [hr] at h
      exact h
    · rw [← hr]
      exact unitsOk_refl s
  split
  · rename_i e st' s' heq
    exact hinit _ heq
  · rename_i st' s' heq
    have h1 : unitsOk s s' := hinit _ heq
    split
    · exact h1
    · exact unitsOk_trans h1 (Or.inl (read_pressure_exchange_units s' g st'))

/-- Method get_atomic_value leaves the unit cache alone or writes a listed
unit string, through whichever read it dispatches to. -/
lemma unitsOk_get_atomic_value (s : DeviceState) (item : String) (st : List RecvEvent) :
    unitsOk s (get_atomic_value s item st).2.2 := by
  unfold get_atomic_value
  split
  · split
    · exact unitsOk_refl s
    · rename_i g hg
      have h := unitsOk_read_pressure s g st
      split
      all_goals rename_i heq
      all_goals rw [heq] at h
      all_goals exact h
  · split
    · have h := read_temperature_units s st
      split
      all_goals rename_i heq
      all_goals rw [heq] at h
      all_goals exact Or.inl h
    · split
      · have h := unitsOk_get_pressure_unit s st
        split
        all_goals rename_i heq
        all_goals rw [heq] at h
        all_goals exact h
      · exact unitsOk_refl s

/-- Successful guarded indexing of the unit tuple at a code in 0..5. -/
lemma tupleIndex_in_range (e : Int) (h0 : 0 ≤ e) (h5 : e ≤ 5) :
    tupleIndex UNIT_CODES e = .ok (UNIT_CODES.getD e.toNat "") := by
  have hl : ((UNIT_CODES.length : Nat) : Int) = 6 := rfl
  unfold tupleIndex
  dsimp only
  rw [if_neg (show ¬e < 0 by omega)]
  rw [if_pos ⟨h0, by rw [hl]; omega⟩]

/-- C1 (amended): on a NAK handshake the engine logs a warning and returns
None without raising — WrongCommandError is declared but never raised — for
every connected state and regardless of the command; the operation then
fails at its caller: read_pressure degrades to the sentinel, while the
int()-based callers raise TypeError from int(None). -/
theorem C1_nak_returns_none (s : DeviceState) (rest : List RecvEvent)
    (hconn : s.connected = true) :
    read_reply s (nakEvents ++ rest) = (.ok none, rest, s) ∧
    (set_pressure_unit connectedState 1 nakEvents).1 = .error .typeError ∧
    (read_pressure oneGaugeState 1 nakEvents).1 = .ok float_info_max :=
  ⟨read_reply_nak s rest hconn, rfl, rfl⟩

/-- C1 witness: the amended statement at the freshly constructed facade with
an empty remaining stream. -/
theorem C1_nak_returns_none_witness :
    connectedState.connected = true ∧
    (read_reply connectedState (nakEvents ++ []) = (.ok none, [], connectedState) ∧
     (set_pressure_unit connectedState 1 nakEvents).1 = .error .typeError ∧
     (read_pressure oneGaugeState 1 nakEvents).1 = .ok float_info_max) :=
  ⟨rfl, C1_nak_returns_none connectedState [] rfl⟩

/-- C1 counterexample: with a NAK handshake, neither set_pressure_unit nor
read_pressure raises WrongCommand — the former raises TypeError, the latter
returns the sentinel. -/
theorem C1_counterexample :
    (set_pressure_unit connectedState 1 nakEvents).1 ≠ .error .wrongCommand ∧
    (read_pressure oneGaugeState 1 nakEvents).1 ≠ .error .wrongCommand := by
  constructor
  · rw [show (set_pressure_unit connectedState 1 nakEvents).1 = .error .typeError from rfl]
    decide
  · rw [show (read_pressure oneGaugeState 1 nakEvents).1 = .ok float_info_max from rfl]
    simp

/-- C2: a timeout on the handshake read raises a plain OSError out of both
read_temperature and read_pressure instead of returning the sentinel:
_read_until rewraps socket.timeout into IOError, which the
except socket.timeout handler in _read_reply does not match. -/
theorem C2_timeout_raises_oserror :
    (read_temperature connectedState [RecvEvent.timeout]).1 = .error .osError ∧
    (read_pressure oneGaugeState 1 [RecvEvent.timeout]).1 = .error .osError :=
  ⟨rfl, rfl⟩

/-- C3: set_pressure_unit(9) logs an error and returns False — it does not
raise, and it never touches the transport (state, including the send log,
is unchanged). The repository's own test expects ValueError here. -/
theorem C3_out_of_range_returns_false :
    set_pressure_unit connectedState 9 [] = (.ok false, [], connectedState) := rfl

/-- C4: for every unit code 0-5, set_pressure_unit sends exactly the frame
UNI,{code} CRLF (followed by the lone ENQ byte after ACK) and, given an ACK
handshake and an echoed integer payload, returns True exactly when the
decoded echoed integer equals the code, caching the indexed unit string
whenever the echo is in range. -/
theorem C4_set_unit_sends_and_echo (s : DeviceState) (code e : Int) (echo : String)
    (rest : List RecvEvent)
    (hconn : s.connected = true)
    (h0 : 0 ≤ code) (h5 : code ≤ 5)
    (hascii : (strBytes echo).all (· < 128) = true)
    (h10 : 10 ∉ strBytes echo)
    (hlen : (strBytes echo).length + 2 ≤ 4096)
    (hclean : stripChars echo.toList = echo.toList)
    (hparse : pyIntStr echo = some e) :
    (set_pressure_unit s code (ackEvents ++ (lineEvents echo ++ rest))).1
        = .ok (e == code) ∧
    (set_pressure_unit s code (ackEvents ++ (lineEvents echo ++ rest))).2.2.sent
        = s.sent ++ [strBytes ("UNI," ++ toString code ++ "\r\n"), [5]] ∧
    (0 ≤ e ∧ e ≤ 5 →
      (set_pressure_unit s code (ackEvents ++ (lineEvents echo ++ rest))).2.2.pressure_units
        = UNIT_CODES.getD e.toNat "") := by
  have hguard : ¬(code < 0 ∨ 5 < code) := by omega
  have hsc : send_command s ("UNI," ++ toString code)
      = (true, { s with sent := s.sent ++ [strBytes ("UNI," ++ toString code ++ "\r\n")] }) := by
    unfold send_command
    rw [hconn]
    rfl
  have hpi : pyInt (some echo) = .ok e := by
    simp only [pyInt, hparse]
  unfold set_pressure_unit
  dsimp only
  rw [if_neg hguard, hsc]
  dsimp only
  rw [if_pos rfl]
  rw [read_reply_ack
    { s with sent := s.sent ++ [strBytes ("UNI," ++ toString code ++ "\r\n")] }
    echo rest hconn hascii h10 hlen]
  dsimp only
  rw [pyStrip_line echo hclean, hpi]
  dsimp only
  by_cases he : 0 ≤ e ∧ e ≤ 5
  · rw [if_pos he, tupleIndex_in_range e he.1 he.2]
    dsimp only
    exact ⟨rfl, by simp, fun _ => rfl⟩
  · rw [if_neg he]
    dsimp only
    exact ⟨rfl, by simp, fun hc => absurd hc he⟩

/-- C4 witness: code 2 echoed as 2 returns True, sends UNI,2 CRLF then ENQ,
and caches the unit string Pascal. -/
theorem C4_set_unit_sends_and_echo_witness :
    (connectedState.connected = true ∧ pyIntStr "2" = some 2) ∧
    (set_pressure_unit connectedState 2 (ackEvents ++ (lineEvents "2" ++ []))).1 = .ok true ∧
    (set_pressure_unit connectedState 2 (ackEvents ++ (lineEvents "2" ++ []))).2.2.sent
      = [strBytes "UNI,2\r\n", [5]] ∧
    (set_pressure_unit connectedState 2 (ackEvents ++ (lineEvents "2" ++ []))).2.2.pressure_units
      = "Pascal" := by
  have h := C4_set_unit_sends_and_echo connectedState 2 2 "2" [] rfl (by decide) (by decide)
    (by decide) (by decide) (by decide) (by decide) (by decide)
  refine ⟨⟨rfl, by decide⟩, ?_, ?_, ?_⟩
  · rw [h.1]
    rfl
  · rw [h.2.1]
    rfl
  · rw [h.2.2 (by decide)]
    rfl

/-- C5: after an ACK handshake, read_pressure(1) decodes the payload line
PR1,7.5e-3 to the float 7.5e-3 (comma-split, field 1 parsed as float), and
the unparsable payload PR1,bogus degrades to the sentinel
sys.float_info.max instead of raising. -/
theorem C5_read_pressure_decode :
    (read_pressure oneGaugeState 1 (ackEvents ++ lineEvents "PR1,7.5e-3")).1
        = .ok (7.5e-3 : ℚ) ∧
    (read_pressure oneGaugeState 1 (ackEvents ++ lineEvents "PR1,bogus")).1
        = .ok float_info_max := by
  constructor
  · show Except.ok (sciToRat 75 (-4)) = _
    have h : sciToRat 75 (-4) = (7.5e-3 : ℚ) := by
      rw [sciToRat]
      norm_num [Rat.mkRat_eq_div, show ((4 : Int).toNat) = 4 from rfl]
    rw [h]
  · rfl

/-- C6 (amended): read_pressure with a gauge below 1, or above the known
gauge count when the identity is initialized, logs an error and returns the
sentinel sys.float_info.max — it does not raise, and the state and stream
are untouched. -/
theorem C6_invalid_gauge_sentinel (s : DeviceState) (gauge : Int) (st : List RecvEvent)
    (hng : s.n_gauges ≠ 0) (hbad : gauge < 1 ∨ s.n_gauges < gauge) :
    read_pressure s gauge st = (.ok float_info_max, st, s) := by
  unfold read_pressure
  rw [if_neg hng]
  dsimp only
  rw [if_pos hbad]

/-- C6 witness: gauge 0 on a two-gauge device returns the sentinel. -/
theorem C6_invalid_gauge_sentinel_witness :
    (({ connectedState with n_gauges := 2 } : DeviceState).n_gauges ≠ 0 ∧
      ((0 : Int) < 1 ∨ ({ connectedState with n_gauges := 2 } : DeviceState).n_gauges < 0)) ∧
    read_pressure { connectedState with n_gauges := 2 } 0 []
      = (.ok float_info_max, [], { connectedState with n_gauges := 2 }) :=
  ⟨⟨by decide, Or.inl (by decide)⟩,
    C6_invalid_gauge_sentinel { connectedState with n_gauges := 2 } 0 []
      (by decide) (Or.inl (by decide))⟩

/-- C6 counterexample: read_pressure with invalid gauge 0 returns the
sentinel value rather than raising an input-contract error. -/
theorem C6_counterexample :
    (read_pressure { connectedState with n_gauges := 2 } 0 []).1 = .ok float_info_max ∧
    ∀ e : PyErr, (read_pressure { connectedState with n_gauges := 2 } 0 []).1 ≠ .error e := by
  refine ⟨rfl, fun e => ?_⟩
  rw [show (read_pressure { connectedState with n_gauges := 2 } 0 []).1
      = .ok float_info_max from rfl]
  simp

/-- C7: on the handshake byte 0x99 — neither ACK nor NAK — the engine logs
and returns None instead of raising UnknownResponse (the class is declared
but never raised); the int()-based caller then raises TypeError. The
repository's own test expects UnknownResponse for a non-ACK handshake. -/
theorem C7_unknown_handshake_no_raise :
    read_reply connectedState (bytesEvents [153, 13, 10]) = (.ok none, [], connectedState) ∧
    (set_pressure_unit connectedState 1 (bytesEvents [153, 13, 10])).1 = .error .typeError ∧
    ∀ raw : List Nat, (set_pressure_unit connectedState 1 (bytesEvents [153, 13, 10])).1
      ≠ .error (.unknownResponse raw) := by
  refine ⟨rfl, rfl, fun raw => ?_⟩
  rw [show (set_pressure_unit connectedState 1 (bytesEvents [153, 13, 10])).1
      = .error .typeError from rfl]
  simp

/-- C8 (amended): decoding the identity payload TPG,DUAL2,123456,1.0,2.1
populates the five identity fields but sets the gauge count to 0, because
the gauge count is parsed from the last character of the type field TPG
(the letter G), not from the model field DUAL2; the parse failure is logged,
not raised. An identity payload with fewer than five comma-separated fields
is logged and leaves the state entirely unchanged without raising. -/
theorem C8_identity_decode :
    ((dev_init connectedState (ackEvents ++ lineEvents "1" ++ ackEvents ++
        lineEvents "TPG,DUAL2,123456,1.0,2.1")).2.2.n_gauges = 0 ∧
     (dev_init connectedState (ackEvents ++ lineEvents "1" ++ ackEvents ++
        lineEvents "TPG,DUAL2,123456,1.0,2.1")).2.2.type = "TPG" ∧
     (dev_init connectedState (ackEvents ++ lineEvents "1" ++ ackEvents ++
        lineEvents "TPG,DUAL2,123456,1.0,2.1")).2.2.serial_number = some 123456) ∧
    ∀ (s : DeviceState) (info : String), (pySplit info ",").length < 5 →
      decode_identity s (some info) = (.ok (), s) := by
  refine ⟨⟨rfl, rfl, rfl⟩, fun s info hlt => ?_⟩
  unfold decode_identity
  dsimp only
  rw [if_neg (by omega)]

/-- C8 witness: a two-field identity payload leaves the state unchanged. -/
theorem C8_identity_decode_witness :
    (pySplit "TPG,0" ",").length < 5 ∧
    decode_identity connectedState (some "TPG,0") = (.ok (), connectedState) :=
  ⟨by decide, (C8_identity_decode).2 connectedState "TPG,0" (by decide)⟩

/-- C8 counterexample: after decoding TPG,DUAL2,123456,1.0,2.1 the gauge
count is 0, not 2. -/
theorem C8_counterexample :
    (dev_init connectedState (ackEvents ++ lineEvents "1" ++ ackEvents ++
        lineEvents "TPG,DUAL2,123456,1.0,2.1")).2.2.n_gauges = 0 ∧
    (dev_init connectedState (ackEvents ++ lineEvents "1" ++ ackEvents ++
        lineEvents "TPG,DUAL2,123456,1.0,2.1")).2.2.n_gauges ≠ 2 :=
  ⟨rfl, by decide⟩

/-- C9 (amended): for every byte stream, terminator and positive max_bytes
bound, the line reader returns a prefix of the stream that ends with the
terminator, or has length exactly max_bytes, or is the whole stream (peer
closed), and never exceeds max_bytes. -/
theorem C9_line_reader_bound (bytes term : List Nat) (maxBytes : Nat)
    (h : 1 ≤ maxBytes) :
    ∃ r, (readUntil term maxBytes [] (bytesEvents bytes)).1 = .ok r ∧
      r <+: bytes ∧
      (term.isSuffixOf r = true ∨ r.length = maxBytes ∨ r = bytes) ∧
      r.length ≤ maxBytes := by
  obtain ⟨p, hp, hres, hdisj, hlen⟩ := readUntil_spec term maxBytes bytes [] (by simpa using h)
  exact ⟨p, by simpa using hres, hp, by simpa using hdisj, by simpa using hlen⟩

/-- C9 witness: the bound at a terminated three-byte line with the default
frame limit. -/
theorem C9_line_reader_bound_witness :
    1 ≤ 4096 ∧
    ∃ r, (readUntil [13, 10] 4096 [] (bytesEvents [80, 13, 10])).1 = .ok r ∧
      r <+: [80, 13, 10] ∧
      ([13, 10].isSuffixOf r = true ∨ r.length = 4096 ∨ r = [80, 13, 10]) ∧
      r.length ≤ 4096 :=
  ⟨by decide, C9_line_reader_bound [80, 13, 10] [13, 10] 4096 (by decide)⟩

/-- C9 counterexample: with max_bytes 0 the reader returns one byte of the
stream [97, 98], which neither ends with the terminator, nor has length 0,
nor is the whole stream — and it exceeds max_bytes. -/
theorem C9_counterexample :
    (readUntil [13, 10] 0 [] (bytesEvents [97, 98])).1 = .ok [97] ∧
    ¬([13, 10].isSuffixOf [97] = true ∨ ([97] : List Nat).length = 0 ∨
        ([97] : List Nat) = [97, 98]) ∧
    ¬(([97] : List Nat).length ≤ 0) := by
  refine ⟨rfl, by decide, by decide⟩

/-- C10: every public operation preserves the invariant that the cached
pressure_units string is empty or one of the six UNIT_CODES strings:
guarded assignments index within 0..5, and the unguarded assignment in
get_pressure_unit either raises IndexError before assigning or wraps a
negative echo back into the tuple. -/
theorem C10_units_invariant (op : Op) (s : DeviceState) (st : List RecvEvent)
    (h : unitsInv s) : unitsInv (run_op op s st) := by
  have hok : unitsOk s (run_op op s st) := by
    cases op with
    | initOp => exact unitsOk_dev_init s st
    | setUnit c => exact unitsOk_set_pressure_unit s c st
    | getUnit => exact unitsOk_get_pressure_unit s st
    | readPress g => exact unitsOk_read_pressure s g st
    | readTemp => exact Or.inl (read_temperature_units s st)
    | getAtomic item => exact unitsOk_get_atomic_value s item st
  rcases hok with h1 | h1
  · rcases h with h2 | h2
    · exact Or.inl (h1.trans h2)
    · exact Or.inr (by rw [h1]; exact h2)
  · exact Or.inr h1

/-- C10 witness: the invariant before and after a set_pressure_unit call on
the fresh facade. -/
theorem C10_units_invariant_witness :
    unitsInv connectedState ∧
    unitsInv (run_op (Op.setUnit 2) connectedState (ackEvents ++ (lineEvents "2" ++ []))) :=
  ⟨Or.inl rfl, C10_units_invariant (Op.setUnit 2) connectedState
    (ackEvents ++ (lineEvents "2" ++ [])) (Or.inl rfl)⟩

end Inficon
